import Mathlib

/-!
Verification development for the circuit-forge-play component recommendation
engine.  The Python modules `lib/component_data.py`, `lib/document_analyzer.py`,
`lib/component_suggestions.py`, `lib/input_capacitor_heuristics.py` and
`lib/web_component_scraper.py` are shallowly embedded below: pure functions
become Lean functions over `ℚ` (Python float arithmetic is modelled by exact
rational arithmetic; all concrete inputs used in the theorems are far from any
float rounding boundary), fallible operations return `Except PyErr`, and the
filesystem / network are passed in as explicit oracles.
-/

/-- Python exception classes that the embedded code can raise. -/
inductive PyErr where
  | zeroDivision
  | attributeError
  | rateLimited
  | timeoutErr
  | requestError
  | generic (msg : String)
  deriving Repr, DecidableEq

instance {ε α : Type} [DecidableEq ε] [DecidableEq α] : DecidableEq (Except ε α) := fun x y =>
  match x, y with
  | .ok a, .ok b =>
    if h : a = b then .isTrue (by rw [h]) else .isFalse (fun hh => h (Except.ok.inj hh))
  | .error a, .error b =>
    if h : a = b then .isTrue (by rw [h]) else .isFalse (fun hh => h (Except.error.inj hh))
  | .ok _, .error _ => .isFalse (fun hh => Except.noConfusion hh)
  | .error _, .ok _ => .isFalse (fun hh => Except.noConfusion hh)

/-! ### Kernel-computable rational arithmetic

`Rat.add`, `Rat.mul`, `Rat.sub` and `Rat.div` do not reduce inside `decide`
proofs in this toolchain, while `Rat.divInt`, `Rat.neg` and the comparison
instances do.  The embedded code therefore computes with the wrappers below;
the bridge lemmas `qadd_eq`, `qsub_eq`, `qmul_eq`, `qdiv_eq`, `qabs_eq`
(proved in the theorem section) identify them with the ordinary field
operations of `ℚ` for algebraic reasoning. -/

def qadd (a b : ℚ) : ℚ := Rat.divInt (a.num * b.den + b.num * a.den) (a.den * b.den)

def qsub (a b : ℚ) : ℚ := Rat.divInt (a.num * b.den - b.num * a.den) (a.den * b.den)

def qmul (a b : ℚ) : ℚ := Rat.divInt (a.num * b.num) (a.den * b.den)

def qdiv (a b : ℚ) : ℚ := Rat.divInt (a.num * b.den) (a.den * b.num)

/-- Python `abs`. -/
def qabs (a : ℚ) : ℚ := if a < 0 then -a else a

/-- Short constructor for non-integral rational constants of the source
(e.g. `1.2` becomes `qc 12 10`). -/
def qc (n d : Int) : ℚ := Rat.divInt n d

/-- Python `a / b`: raises `ZeroDivisionError` when `b = 0` (for both `int`
and `float` operands), otherwise exact division (float rounding ignored). -/
def pydiv (a b : ℚ) : Except PyErr ℚ :=
  if b = 0 then .error .zeroDivision else .ok (qdiv a b)

/-! ### Python text primitives, modelled on `List Char` -/

/-- `str.lower()` restricted to ASCII letters; all repository keywords and
document fixtures are ASCII (the sole non-ASCII keyword char `µ` is already
lowercase and is left unchanged, as CPython does). -/
def asciiLower (c : Char) : Char :=
  if 'A' ≤ c ∧ c ≤ 'Z' then Char.ofNat (c.toNat + 32) else c

def lowerChars (l : List Char) : List Char := l.map asciiLower

/-- Characters removed by Python `str.strip()` with no argument. -/
def pySpace (c : Char) : Bool :=
  c = ' ' ∨ c = '\t' ∨ c = '\n' ∨ c = '\r' ∨ c = '\x0b' ∨ c = '\x0c'

def stripChars (l : List Char) : List Char :=
  ((l.dropWhile pySpace).reverse.dropWhile pySpace).reverse

/-- Whether `pat` occurs as a contiguous prefix of `s`. -/
def prefChars : List Char → List Char → Bool
  | [], _ => true
  | _ :: _, [] => false
  | a :: as, b :: bs => a = b && prefChars as bs

/-- Python `pat in s` (contiguous substring test). -/
def subChars (pat : List Char) : List Char → Bool
  | [] => pat.isEmpty
  | c :: cs => prefChars pat (c :: cs) || subChars pat cs

/-- Python `pat in s` on strings. -/
def strIn (pat s : String) : Bool := subChars pat.toList s.toList

/-- Python `s.split(sep)` for a single separator char; always yields at least
one (possibly empty) segment. -/
def splitChars (sep : Char) : List Char → List (List Char)
  | [] => [[]]
  | c :: cs =>
    match splitChars sep cs with
    | [] => [[]]
    | seg :: segs => if c = sep then [] :: seg :: segs else (c :: seg) :: segs

/-- `content.split('\n')` as a list of strings. -/
def pyLines (s : String) : List String :=
  (splitChars '\n' s.toList).map List.asString

def pyStrip (s : String) : String := (stripChars s.toList).asString
def pyLower (s : String) : String := (lowerChars s.toList).asString

def isDigitCh (c : Char) : Bool := '0' ≤ c ∧ c ≤ '9'

def digitVal (c : Char) : Nat := c.toNat - '0'.toNat

def digitsToNat (l : List Char) : Nat :=
  l.foldl (fun acc c => acc * 10 + digitVal c) 0

/-- `int(re.findall(r'\d+', s)[0])` when at least one digit run exists:
the first maximal run of decimal digits, as a number. -/
def firstNum (l : List Char) : Option Nat :=
  match l with
  | [] => none
  | c :: cs =>
    if isDigitCh c then
      some (digitsToNat (c :: cs.takeWhile isDigitCh))
    else firstNum cs

def firstNumStr (s : String) : Option Nat := firstNum s.toList

/-- Python `float(s)` for plain decimal literals (optional sign, digits,
optional fractional part).  Scientific notation, `inf` and `nan` are not used
by any catalog string in the repository and are parsed as failures. -/
def parseDecFrac : List Char → Option ℚ
  | l =>
    let intPart := l.takeWhile isDigitCh
    let rest := l.dropWhile isDigitCh
    match rest with
    | [] => if intPart.isEmpty then none else some (digitsToNat intPart)
    | '.' :: fr =>
      if fr.all isDigitCh ∧ (intPart ≠ [] ∨ fr ≠ []) then
        some (Rat.divInt (digitsToNat intPart * 10 ^ fr.length + digitsToNat fr) (10 ^ fr.length))
      else none
    | _ => none

def pyFloat (s : String) : Option ℚ :=
  match stripChars s.toList with
  | '+' :: rest => parseDecFrac rest
  | '-' :: rest => (parseDecFrac rest).map Neg.neg
  | rest => parseDecFrac rest

/-- Python `s.replace(old, new)` (all non-overlapping occurrences, left to
right). -/
def replChars (old new : List Char) : List Char → List Char
  | [] => []
  | c :: cs =>
    if prefChars old (c :: cs) ∧ old ≠ [] then
      new ++ replChars old new ((c :: cs).drop old.length)
    else
      c :: replChars old new cs
termination_by l => l.length
decreasing_by
  · simp only [List.length_drop, List.length_cons]
    rename_i h
    have : 0 < old.length := List.length_pos.mpr h.2
    omega
  · simp

def pyReplace (s old new : String) : String :=
  (replChars old.toList new.toList s.toList).asString

/-! ### Number rendering

Python renders the concrete fixture values used in the claims as plain
decimals (`470`, `2.5`, `280`); when a value originates from `float(...)` an
integral value additionally carries a trailing `.0` (`470.0`).  Both forms
contain the substrings asserted by the specification, so the minimal decimal
rendering below is used. -/

def natStr (n : Nat) : String := toString n

def intStr (i : Int) : String :=
  if i < 0 then ("-") ++ natStr i.natAbs else natStr i.natAbs

/-- Smallest number of decimal digits that renders `den` exactly, if any. -/
def decDigits (den : Nat) : Option Nat :=
  (List.range 31).find? (fun k => den ∣ 10 ^ k)

/-- Zero-pad `s` on the left to length `k`. -/
def padLeft (s : String) (k : Nat) : String :=
  (List.replicate (k - s.length) '0').asString ++ s

/-- Render a rational exactly, as Python renders the corresponding numeric
value (minus a possible trailing `.0`, see above). -/
def fmtQ (q : ℚ) : String :=
  match decDigits q.den with
  | some 0 => intStr q.num
  | some (k + 1) =>
    let m : Int := q.num * ((10 ^ (k + 1) : Nat) / q.den)
    let digits := padLeft (natStr m.natAbs) (k + 2)
    let cut := digits.length - (k + 1)
    (if m < 0 then ("-") else ("")) ++
      (digits.toList.take cut).asString ++ (".") ++ (digits.toList.drop cut).asString
  | none => intStr q.num ++ ("/") ++ natStr q.den

/-- Floor of a rational to an integer (`x.den` is always positive, so `fdiv`
is floor division). -/
def qfloor (x : ℚ) : Int := Int.fdiv x.num x.den

/-- Round-half-even of a rational to an integer (CPython `format` rounding). -/
def halfEven (x : ℚ) : Int :=
  let fl := qfloor x
  let fr := qsub x (Rat.divInt fl 1)
  if fr < qc 1 2 then fl
  else if qc 1 2 < fr then fl + 1
  else if fl % 2 = 0 then fl else fl + 1

/-- Python `f"{x:.1f}"` for non-negative `x` (all formatted ratios in the
embedded code are non-negative). -/
def fmt1 (q : ℚ) : String :=
  let m := halfEven (qmul q 10)
  (if m < 0 then ("-") else ("")) ++ natStr (m.natAbs / 10) ++ (".") ++ natStr (m.natAbs % 10)

/-- Python `'; '.join(l)` and friends. -/
def joinSep (sep : String) : List String → String
  | [] => ("")
  | [s] => s
  | s :: rest => s ++ sep ++ joinSep sep rest

/-! ### Data model (`lib/component_data.py`)

The four part-record dataclasses.  Numeric fields are `ℚ` (Python `float`
modelled exactly), text fields are `String`. -/

structure MOSFET where
  name : String
  manufacturer : String
  vds : ℚ
  id : ℚ
  rdson : ℚ
  qg : ℚ
  package : String
  typical_use : String
  efficiency_range : String
  deriving Repr, DecidableEq

structure Capacitor where
  part_number : String
  manufacturer : String
  capacitance : ℚ
  voltage : ℚ
  type : String
  esr : String
  primary_use : String
  temp_range : String
  deriving Repr, DecidableEq

structure InputCapacitor where
  part_number : String
  manufacturer : String
  category : String
  dielectric : String
  capacitance : ℚ
  voltage : ℚ
  esr : ℚ
  esl : ℚ
  ripple_rating : ℚ
  lifetime : ℚ
  package : String
  cost : ℚ
  availability : String
  notes : String
  deriving Repr, DecidableEq

structure Inductor where
  part_number : String
  manufacturer : String
  inductance : ℚ
  current : ℚ
  dcr : ℚ
  sat_current : ℚ
  package : String
  shielded : Bool := false
  core_material : String := ("")
  temp_range : String := ("")
  deriving Repr, DecidableEq

/-! ### Catalog loading (`lib/component_data.py`)

Each loader probes four candidate CSV paths and parses the first existing
file.  The filesystem interaction is abstracted into one oracle value per
loader: `none` means no candidate path exists, `some (.error e)` means a file
was found but reading/row coercion raised, and `some (.ok rows)` is a
successful parse into typed records.  This is exactly the case split of the
Python `try/except` bodies. -/

def get_fallback_mosfets : List MOSFET :=
  [ ⟨("BSC016N06NS"), ("Infineon"), 60, 150, qc 16 10, 44, ("SuperSO8"),
      ("Mid-power buck, low loss"), ("96–98%")⟩,
    ⟨("CSD19505KCS"), ("Texas Instruments"), 60, 80, qc 25 10, 37, ("TO-220"),
      ("Classic synchronous buck"), ("95–97%")⟩,
    ⟨("IPB017N10N5"), ("Infineon"), 100, 120, qc 17 10, 70, ("D²PAK"),
      ("48V bus robotics converter"), ("96–97%")⟩ ]

def get_fallback_capacitors : List Capacitor :=
  [ ⟨("C3216X7R1H106K160AC"), ("TDK"), 10, 50, ("MLCC X7R"), ("~2-5"),
      ("HF ripple + local decoupling"), ("-55..125")⟩,
    ⟨("C3225X7R1E226M250AB"), ("TDK"), 22, 25, ("MLCC X7R"), ("~2-5"),
      ("HF ripple + bulk on 12V"), ("-55..125")⟩ ]

def get_fallback_inductors : List Inductor :=
  [ ⟨("SER2915H-472KL"), ("Coilcraft"), 4700, qc 73 100, 1850, qc 95 100,
      ("SER2915"), false, (""), ("")⟩,
    ⟨("SER2915H-103KL"), ("Coilcraft"), 10000, qc 48 100, 4200, qc 62 100,
      ("SER2915"), false, (""), ("")⟩ ]

/-- Outcome of probing the candidate paths and reading the CSV file. -/
def CsvSource (σ : Type) := Option (Except PyErr (List σ))

def load_mosfets_from_csv (src : CsvSource MOSFET) : List MOSFET :=
  match src with
  | none => get_fallback_mosfets
  | some (.error _) => get_fallback_mosfets
  | some (.ok rows) => rows

def load_capacitors_from_csv (src : CsvSource Capacitor) : List Capacitor :=
  match src with
  | none => get_fallback_capacitors
  | some (.error _) => get_fallback_capacitors
  | some (.ok rows) => rows

/-- `load_input_capacitors_from_csv` returns the empty list — not a fallback
catalog — both when no candidate path exists and on a parse error. -/
def load_input_capacitors_from_csv (src : CsvSource InputCapacitor) : List InputCapacitor :=
  match src with
  | none => []
  | some (.error _) => []
  | some (.ok rows) => rows

def load_inductors_from_csv (src : CsvSource Inductor) : List Inductor :=
  match src with
  | none => get_fallback_inductors
  | some (.error _) => get_fallback_inductors
  | some (.ok rows) => rows

/-- The four module-level library globals of `lib/component_data.py`. -/
structure LibState where
  MOSFET_LIBRARY : List MOSFET
  CAPACITOR_LIBRARY : List Capacitor
  INPUT_CAPACITOR_LIBRARY : List InputCapacitor
  INDUCTOR_LIBRARY : List Inductor
  deriving Repr

/-- The filesystem as seen by the four loaders at one point in time. -/
structure CsvEnv where
  mosfetSrc : CsvSource MOSFET
  capacitorSrc : CsvSource Capacitor
  inputCapacitorSrc : CsvSource InputCapacitor
  inductorSrc : CsvSource Inductor

/-- Module import time: all four globals are bound from the loaders. -/
def initLibState (env : CsvEnv) : LibState :=
  ⟨load_mosfets_from_csv env.mosfetSrc,
   load_capacitors_from_csv env.capacitorSrc,
   load_input_capacitors_from_csv env.inputCapacitorSrc,
   load_inductors_from_csv env.inductorSrc⟩

/-- `reload_component_data`: declares `global MOSFET_LIBRARY,
CAPACITOR_LIBRARY, INDUCTOR_LIBRARY` and rebinds exactly those three;
`INPUT_CAPACITOR_LIBRARY` is not mentioned in the function body. -/
def reload_component_data (env : CsvEnv) (st : LibState) : LibState :=
  { st with
    MOSFET_LIBRARY := load_mosfets_from_csv env.mosfetSrc,
    CAPACITOR_LIBRARY := load_capacitors_from_csv env.capacitorSrc,
    INDUCTOR_LIBRARY := load_inductors_from_csv env.inductorSrc }

/-! ### Heuristics document analysis (`lib/document_analyzer.py`)

A heuristics directory is modelled as the list of its `.docx` files in
`os.listdir` order, each paired with the text that `read_docx_content`
extracts from it (the empty string when reading fails).  A missing directory
is the empty list.  The `recommendations` entry of each analysis dict is
omitted: no suggestion pipeline reads it. -/

def asciiUpper (c : Char) : Char :=
  if 'a' ≤ c ∧ c ≤ 'z' then Char.ofNat (c.toNat - 32) else c

def pyUpper (s : String) : String := (s.toList.map asciiUpper).asString

/-- `any(keyword in line_lower for keyword in kws)`. -/
def anyKw (kws : List String) (s : String) : Bool :=
  kws.any (fun k => strIn k s)

structure InductorCriteria where
  current_rating_guidelines : List String := []
  inductance_selection : List String := []
  core_material_recommendations : List String := []
  frequency_considerations : List String := []
  thermal_guidelines : List String := []
  application_specific : List String := []
  general_guidelines : List String := []
  deriving Repr, DecidableEq

/-- One classification step of `analyze_inductor_content`. -/
def classifyInductorLine (c : InductorCriteria) (line : String) : InductorCriteria :=
  let ll := pyStrip (pyLower line)
  let st := pyStrip line
  if ll = ("") then c
  else if anyKw [("current"), ("ampere"), ("amp"), ("rating"), ("isat"), ("saturation")] ll then
    { c with current_rating_guidelines := c.current_rating_guidelines ++ [st] }
  else if anyKw [("inductance"), ("henry"), ("µh"), ("uh"), ("ripple"), ("l=")] ll then
    { c with inductance_selection := c.inductance_selection ++ [st] }
  else if anyKw [("core"), ("ferrite"), ("powder"), ("material"), ("iron")] ll then
    { c with core_material_recommendations := c.core_material_recommendations ++ [st] }
  else if anyKw [("frequency"), ("khz"), ("mhz"), ("switching"), ("freq")] ll then
    { c with frequency_considerations := c.frequency_considerations ++ [st] }
  else if anyKw [("thermal"), ("temperature"), ("heat"), ("cooling"), ("temp")] ll then
    { c with thermal_guidelines := c.thermal_guidelines ++ [st] }
  else if anyKw [("buck"), ("boost"), ("converter"), ("pfc"), ("application")] ll then
    { c with application_specific := c.application_specific ++ [st] }
  else if st.length > 20 then
    { c with general_guidelines := c.general_guidelines ++ [st] }
  else c

def analyze_inductor_content (content : String) : InductorCriteria :=
  (pyLines content).foldl classifyInductorLine {}

structure MosfetCriteria where
  voltage_derating_guidelines : List String := []
  current_derating_guidelines : List String := []
  rdson_optimization : List String := []
  gate_charge_considerations : List String := []
  thermal_guidelines : List String := []
  package_selection : List String := []
  efficiency_optimization : List String := []
  application_specific : List String := []
  general_guidelines : List String := []
  deriving Repr, DecidableEq

def classifyMosfetLine (c : MosfetCriteria) (line : String) : MosfetCriteria :=
  let ll := pyStrip (pyLower line)
  let st := pyStrip line
  if ll = ("") then c
  else if anyKw [("voltage"), ("vds"), ("derating"), ("margin"), ("breakdown")] ll then
    { c with voltage_derating_guidelines := c.voltage_derating_guidelines ++ [st] }
  else if anyKw [("current"), ("id"), ("ampere"), ("amp"), ("derating")] ll then
    { c with current_derating_guidelines := c.current_derating_guidelines ++ [st] }
  else if anyKw [("rdson"), ("rds(on)"), ("resistance"), ("efficiency"), ("loss")] ll then
    { c with rdson_optimization := c.rdson_optimization ++ [st] }
  else if anyKw [("gate"), ("qg"), ("qgs"), ("qgd"), ("charge"), ("driver")] ll then
    { c with gate_charge_considerations := c.gate_charge_considerations ++ [st] }
  else if anyKw [("thermal"), ("temperature"), ("heat"), ("cooling"), ("junction")] ll then
    { c with thermal_guidelines := c.thermal_guidelines ++ [st] }
  else if anyKw [("package"), ("so-8"), ("to-220"), ("d2pak"), ("surface mount")] ll then
    { c with package_selection := c.package_selection ++ [st] }
  else if anyKw [("efficiency"), ("loss"), ("switching"), ("conduction")] ll then
    { c with efficiency_optimization := c.efficiency_optimization ++ [st] }
  else if anyKw [("buck"), ("boost"), ("converter"), ("pfc"), ("application")] ll then
    { c with application_specific := c.application_specific ++ [st] }
  else if st.length > 20 then
    { c with general_guidelines := c.general_guidelines ++ [st] }
  else c

def analyze_mosfet_content (content : String) : MosfetCriteria :=
  (pyLines content).foldl classifyMosfetLine {}

structure CapacitorCriteria where
  voltage_derating_guidelines : List String := []
  esr_optimization : List String := []
  ripple_current_guidelines : List String := []
  temperature_considerations : List String := []
  type_selection_logic : List String := []
  capacitance_tolerance : List String := []
  frequency_response : List String := []
  application_specific : List String := []
  general_guidelines : List String := []
  deriving Repr, DecidableEq

def classifyCapacitorLine (c : CapacitorCriteria) (line : String) : CapacitorCriteria :=
  let ll := pyStrip (pyLower line)
  let st := pyStrip line
  if ll = ("") then c
  else if anyKw [("voltage"), ("derating"), ("margin"), ("breakdown"), ("rating")] ll then
    { c with voltage_derating_guidelines := c.voltage_derating_guidelines ++ [st] }
  else if anyKw [("esr"), ("resistance"), ("impedance"), ("loss")] ll then
    { c with esr_optimization := c.esr_optimization ++ [st] }
  else if anyKw [("ripple"), ("current"), ("rms"), ("heating")] ll then
    { c with ripple_current_guidelines := c.ripple_current_guidelines ++ [st] }
  else if anyKw [("temperature"), ("temp"), ("thermal"), ("coefficient")] ll then
    { c with temperature_considerations := c.temperature_considerations ++ [st] }
  else if anyKw [("mlcc"), ("ceramic"), ("electrolytic"), ("polymer"), ("tantalum")] ll then
    { c with type_selection_logic := c.type_selection_logic ++ [st] }
  else if anyKw [("capacitance"), ("tolerance"), ("variation"), ("µf"), ("uf")] ll then
    { c with capacitance_tolerance := c.capacitance_tolerance ++ [st] }
  else if anyKw [("frequency"), ("freq"), ("khz"), ("mhz"), ("resonant")] ll then
    { c with frequency_response := c.frequency_response ++ [st] }
  else if anyKw [("buck"), ("boost"), ("converter"), ("pfc"), ("filter"), ("decoupling")] ll then
    { c with application_specific := c.application_specific ++ [st] }
  else if st.length > 20 then
    { c with general_guidelines := c.general_guidelines ++ [st] }
  else c

def analyze_capacitor_content (content : String) : CapacitorCriteria :=
  (pyLines content).foldl classifyCapacitorLine {}

/-- `analyze_*_heuristics` result (documents in `os.listdir` order). -/
structure Analysis (σ : Type) where
  documents_found : List String
  selection_criteria : List (String × σ)
  updated_algorithm : Bool
  deriving Repr

def analyze_inductor_heuristics (docs : List (String × String)) : Analysis InductorCriteria :=
  ⟨docs.map Prod.fst, docs.map (fun d => (d.1, analyze_inductor_content d.2)), !docs.isEmpty⟩

def analyze_mosfet_heuristics (docs : List (String × String)) : Analysis MosfetCriteria :=
  ⟨docs.map Prod.fst, docs.map (fun d => (d.1, analyze_mosfet_content d.2)), !docs.isEmpty⟩

def analyze_capacitor_heuristics (docs : List (String × String)) : Analysis CapacitorCriteria :=
  ⟨docs.map Prod.fst, docs.map (fun d => (d.1, analyze_capacitor_content d.2)), !docs.isEmpty⟩

/-! ### Margin/tolerance overrides (`lib/component_suggestions.py`)

Each suggest function walks the per-document criteria dicts in insertion
order; within one document it takes the first guideline of the relevant
bucket that mentions one of two keywords (case-insensitively) and whose first
embedded number lies in the accepted range, and `break`s — so a later
document can overwrite an earlier one. -/

def extractFirst (k1 k2 : String) (lo hi : Nat) : List String → Option Nat
  | [] => none
  | g :: gs =>
    if strIn k1 (pyLower g) || strIn k2 (pyLower g) then
      match firstNumStr g with
      | some n => if lo ≤ n ∧ n ≤ hi then some n else extractFirst k1 k2 lo hi gs
      | none => extractFirst k1 k2 lo hi gs
    else extractFirst k1 k2 lo hi gs

/-- Defaults of `suggest_mosfets`: `voltage_margin = 1.5`,
`current_margin = 1.3`, then the per-document override loops. -/
def mosfetMarginFold : List (String × MosfetCriteria) → ℚ × ℚ × List String → ℚ × ℚ × List String
  | [], acc => acc
  | dc :: rest, (vm, cm, msgs) =>
    let p1 : ℚ × List String :=
      match extractFirst ("margin") ("derating") 20 200 dc.2.voltage_derating_guidelines with
      | some n => (qc (100 + n) 100,
          msgs ++ [("📋 Applied voltage margin: ") ++ natStr n ++ ("% from heuristics")])
      | none => (vm, msgs)
    let p2 : ℚ × List String :=
      match extractFirst ("margin") ("derating") 10 100 dc.2.current_derating_guidelines with
      | some n => (qc (100 + n) 100,
          p1.2 ++ [("📋 Applied current margin: ") ++ natStr n ++ ("% from heuristics")])
      | none => (cm, p1.2)
    mosfetMarginFold rest (p1.1, p2.1, p2.2)

/-- Defaults of `suggest_capacitors`: `voltage_margin = 1.2`,
`capacitance_tolerance = 2.0`. -/
def capacitorMarginFold : List (String × CapacitorCriteria) → ℚ × ℚ × List String → ℚ × ℚ × List String
  | [], acc => acc
  | dc :: rest, (vm, tol, msgs) =>
    let p1 : ℚ × List String :=
      match extractFirst ("margin") ("derating") 10 100 dc.2.voltage_derating_guidelines with
      | some n => (qc (100 + n) 100,
          msgs ++ [("📋 Applied voltage margin: ") ++ natStr n ++ ("% from heuristics")])
      | none => (vm, msgs)
    let p2 : ℚ × List String :=
      match extractFirst ("tolerance") ("range") 50 500 dc.2.capacitance_tolerance with
      | some n => (qc n 100,
          p1.2 ++ [("📋 Applied capacitance tolerance: ") ++ natStr n ++ ("% from heuristics")])
      | none => (tol, p1.2)
    capacitorMarginFold rest (p1.1, p2.1, p2.2)

/-- Defaults of `suggest_inductors`: `current_margin = 1.2`,
`inductance_tolerance = 4.0`. -/
def inductorMarginFold : List (String × InductorCriteria) → ℚ × ℚ × List String → ℚ × ℚ × List String
  | [], acc => acc
  | dc :: rest, (cm, tol, msgs) =>
    let p1 : ℚ × List String :=
      match extractFirst ("margin") ("derating") 10 100 dc.2.current_rating_guidelines with
      | some n => (qc (100 + n) 100,
          msgs ++ [("📋 Applied current margin: ") ++ natStr n ++ ("% from heuristics")])
      | none => (cm, msgs)
    let p2 : ℚ × List String :=
      match extractFirst ("tolerance") ("range") 10 100 dc.2.inductance_selection with
      | some n => (qc n 100,
          p1.2 ++ [("📋 Applied inductance tolerance: ") ++ natStr n ++ ("% from heuristics")])
      | none => (tol, p1.2)
    inductorMarginFold rest (p1.1, p2.1, p2.2)

/-! ### Ranking (`suggestions.sort(key=..., reverse=True)`, truncation,
provenance tag)

Python `list.sort` is stable, so the descending sort by score is modelled by
a stable insertion sort: each element is inserted after every
already-inserted element of greater-or-equal score. -/

structure Suggestion (α : Type) where
  component : α
  reason : String
  score : ℚ
  heuristics_applied : List String
  deriving Repr, DecidableEq

def insertDescBy {α : Type} (key : α → ℚ) (x : α) : List α → List α
  | [] => [x]
  | y :: ys => if key x ≤ key y then y :: insertDescBy key x ys else x :: y :: ys

def sortDescBy {α : Type} (key : α → ℚ) (l : List α) : List α :=
  l.foldl (fun acc x => insertDescBy key x acc) []

/-- The post-sort loop `for i, suggestion in enumerate(suggestions[:3])`:
only the `i == 0` iteration can fire, extending the top suggestion's
`heuristics_applied` with one provenance tag. -/
def attachTag {α : Type} (cond : Bool) (tag : String) : List (Suggestion α) → List (Suggestion α)
  | [] => []
  | s :: rest =>
    if cond then { s with heuristics_applied := s.heuristics_applied ++ [tag] } :: rest
    else s :: rest

/-- Sort by score descending (stable), attach the provenance tag to the top
suggestion, return the top 5. -/
def rankAndTag {α : Type} (cond : Bool) (tag : String) (cands : List (Suggestion α)) :
    List (Suggestion α) :=
  (attachTag cond tag (sortDescBy Suggestion.score cands)).take 5

/-! ### Utilization adjustments (score step 4 of each family)

Each returns the signed score adjustment together with the heuristics tag
appended when the bonus branch fires. -/

/-- MOSFET voltage band: penalty `(r-2)*10` above `2`, `+5` in `[1.2, 1.8]`. -/
def mosfetVoltUtil (r : ℚ) : ℚ × Option String :=
  if 2 < r then (-(qmul (qsub r 2) 10), none)
  else if qc 12 10 ≤ r ∧ r ≤ qc 18 10 then (5, some ("⚡ Optimal voltage utilization"))
  else (0, none)

/-- MOSFET current band: penalty `(r-2)*5` above `2`, `+5` in `[1.2, 1.8]`. -/
def mosfetCurUtil (r : ℚ) : ℚ × Option String :=
  if 2 < r then (-(qmul (qsub r 2) 5), none)
  else if qc 12 10 ≤ r ∧ r ≤ qc 18 10 then (5, some ("⚡ Optimal current utilization"))
  else (0, none)

/-- Inductor current band: penalty `(r-2)*10` above `2`, `+5` in `[1.2, 1.8]`. -/
def inductorCurUtil (r : ℚ) : ℚ × Option String :=
  if 2 < r then (-(qmul (qsub r 2) 10), none)
  else if qc 12 10 ≤ r ∧ r ≤ qc 18 10 then (5, some ("⚡ Optimal current utilization"))
  else (0, none)

/-- Output-capacitor voltage band: penalty `(r-3)*10` above `3`, `+5` in
`[1.2, 2.0]` (`suggest_capacitors`, lines 376–381). -/
def capVoltUtil (r : ℚ) : ℚ × Option String :=
  if 3 < r then (-(qmul (qsub r 3) 10), none)
  else if qc 12 10 ≤ r ∧ r ≤ 2 then (5, some ("⚡ Optimal voltage utilization"))
  else (0, none)

/-- Input-capacitor voltage derating tiers in `suggest_input_capacitors`
(lines 546–553): `+15` at ratio ≥ 2, `+10` at ratio ≥ 1.5, else `-5`. -/
def inputCapVoltTier (r : ℚ) : ℚ :=
  if 2 ≤ r then 15 else if qc 15 10 ≤ r then 10 else -5

/-! ### `suggest_mosfets` (local-catalog path, `use_web_search=False`)

In each `suggest_*` embedding the module globals consulted by the Python
function are explicit parameters: `docs` is the family's heuristics document
directory (as read by `analyze_*_heuristics`) and `catalog` is the library
global (`MOSFET_LIBRARY`, `CAPACITOR_LIBRARY`, ...) the loop iterates
over. -/

def applyUtil (score : ℚ) (ch : List String) (p : ℚ × Option String) : ℚ × List String :=
  (qadd score p.1, ch ++ p.2.toList)

def processMosfet (vm cm : ℚ) (applied : List String)
    (crits : List (String × MosfetCriteria)) (maxV maxC freq : ℚ) (m : MOSFET) :
    Except PyErr (Option (Suggestion MOSFET)) :=
  if m.vds < qmul maxV vm then .ok none
  else if m.id < qmul maxC cm then .ok none
  else do
    let score : ℚ := 100
    let ch := applied
    let pen0 := qmul m.rdson 2
    let pc : ℚ × List String :=
      if (100000 : ℚ) < freq then
        (qmul pen0 (qc 15 10), ch ++ [("🔄 High-frequency RDS(on) penalty applied")])
      else (pen0, ch)
    let score := qsub score pc.1
    let ch := pc.2
    let vr ← pydiv m.vds (qmul maxV vm)
    let sc1 := applyUtil score ch (mosfetVoltUtil vr)
    let cr ← pydiv m.id (qmul maxC cm)
    let sc2 := applyUtil sc1.1 sc1.2 (mosfetCurUtil cr)
    let score := sc2.1
    let ch := sc2.2
    let sc3 : ℚ × List String :=
      if 0 < m.qg ∧ (50000 : ℚ) < freq then
        if m.qg < 30 then (qadd score 10, ch ++ [("🚀 Low gate charge for high frequency")])
        else if 60 < m.qg then (qsub score 5, ch ++ [("⚠️ High gate charge penalty")])
        else (score, ch)
      else (score, ch)
    let sc4 := crits.foldl (fun (p : ℚ × List String) dc =>
      if dc.2.general_guidelines.any (fun g => strIn (pyLower m.manufacturer) (pyLower g)) then
        (qadd p.1 10, p.2 ++ [("🎯 Recommended manufacturer from heuristics")])
      else p) sc3
    let sc5 : ℚ × List String :=
      if strIn ("98%") m.efficiency_range || strIn ("97%") m.efficiency_range then
        (qadd sc4.1 5, sc4.2 ++ [("⭐ High efficiency rating")])
      else sc4
    let reason := ("VDS=") ++ fmtQ m.vds ++ ("V (") ++ fmt1 vr ++ ("x margin), ID=")
      ++ fmtQ m.id ++ ("A (") ++ fmt1 cr ++ ("x margin), RDS(on)=")
      ++ fmtQ m.rdson ++ ("mΩ. ") ++ m.typical_use
    let reason := if sc5.2.isEmpty then reason
      else reason ++ (". Applied: ") ++ joinSep ("; ") (sc5.2.take 2)
    pure (some ⟨m, reason, sc5.1, sc5.2⟩)

def mosfetBaseApplied (docs : List (String × String)) : List String :=
  if (analyze_mosfet_heuristics docs).updated_algorithm then
    [("✅ Using updated algorithm from ")
      ++ natStr (analyze_mosfet_heuristics docs).documents_found.length ++ (" document(s)")]
  else []

/-- The effective `(voltage_margin, current_margin, applied_heuristics)` of
`suggest_mosfets` after the heuristics override loops. -/
def mosfetEffectiveMargins (docs : List (String × String)) : ℚ × ℚ × List String :=
  mosfetMarginFold (analyze_mosfet_heuristics docs).selection_criteria
    (qc 15 10, qc 13 10, mosfetBaseApplied docs)

def suggest_mosfets (docs : List (String × String)) (maxV maxC freq : ℚ)
    (catalog : List MOSFET) : Except PyErr (List (Suggestion MOSFET)) := do
  let em := mosfetEffectiveMargins docs
  let opts ← catalog.mapM
    (processMosfet em.1 em.2.1 em.2.2 (analyze_mosfet_heuristics docs).selection_criteria maxV maxC freq)
  pure (rankAndTag (!em.2.2.isEmpty)
    (("📊 Analysis from: ") ++ joinSep (", ") (analyze_mosfet_heuristics docs).documents_found)
    opts.reduceOption)

/-! ### `suggest_inductors` (local-catalog path) -/

/-- The hard filter of `suggest_inductors` (lines 719–737): current rating,
saturation current, then the inductance-ratio window (the ratio division
raises `ZeroDivisionError` when the required inductance is `0`). -/
def inductorHardFilter (cm tol : ℚ) (reqL maxC : ℚ) (ind : Inductor) : Except PyErr Bool :=
  if ind.current < qmul maxC cm then .ok false
  else if ind.sat_current < qmul maxC cm then .ok false
  else do
    let ratio ← pydiv ind.inductance reqL
    if ratio < qsub 1 tol ∨ qadd 1 tol < ratio then pure false else pure true

def processInductor (cm tol : ℚ) (applied : List String)
    (crits : List (String × InductorCriteria)) (reqL maxC freq : ℚ) (ind : Inductor) :
    Except PyErr (Option (Suggestion Inductor)) := do
  let pass ← inductorHardFilter cm tol reqL maxC ind
  if !pass then pure none
  else do
    let score : ℚ := 100
    let ch := applied
    let ind_diff ← pydiv (qabs (qsub ind.inductance reqL)) reqL
    let score := qsub score (qmul ind_diff 50)
    let pen0 := qmul ind.dcr (qc 1 100)
    let pc : ℚ × List String :=
      if (100000 : ℚ) < freq then
        (qmul pen0 (qc 15 10), ch ++ [("🔄 High-frequency DCR penalty applied")])
      else (pen0, ch)
    let score := qsub score pc.1
    let ch := pc.2
    let cr ← pydiv ind.current (qmul maxC cm)
    let sc1 := applyUtil score ch (inductorCurUtil cr)
    let sc2 := crits.foldl (fun (p : ℚ × List String) dc =>
      if dc.2.core_material_recommendations.any
          (fun g => strIn (pyLower ind.manufacturer) (pyLower g)) then
        (qadd p.1 10, p.2 ++ [("🎯 Recommended manufacturer from heuristics")])
      else p) sc1
    let sc3 : ℚ × List String :=
      if (100000 : ℚ) < freq ∧ strIn ("SO") (pyUpper ind.package) then
        (qadd sc2.1 5, sc2.2 ++ [("📦 SMD package suitable for high frequency")])
      else sc2
    let reason := fmtQ ind.inductance ++ ("µH, rated for ") ++ fmtQ ind.current
      ++ ("A (") ++ fmt1 cr ++ ("x margin), Isat=") ++ fmtQ ind.sat_current
      ++ ("A. DCR=") ++ fmtQ ind.dcr ++ ("mΩ. ") ++ ind.package ++ (" package")
    let reason := if sc3.2.isEmpty then reason
      else reason ++ (". Applied: ") ++ joinSep ("; ") (sc3.2.take 2)
    pure (some ⟨ind, reason, sc3.1, sc3.2⟩)

def inductorBaseApplied (docs : List (String × String)) : List String :=
  if (analyze_inductor_heuristics docs).updated_algorithm then
    [("✅ Using updated algorithm from ")
      ++ natStr (analyze_inductor_heuristics docs).documents_found.length ++ (" document(s)")]
  else []

/-- The effective `(current_margin, inductance_tolerance, applied_heuristics)`
of `suggest_inductors` after the heuristics override loops. -/
def inductorEffectiveMargins (docs : List (String × String)) : ℚ × ℚ × List String :=
  inductorMarginFold (analyze_inductor_heuristics docs).selection_criteria
    (qc 12 10, 4, inductorBaseApplied docs)

def suggest_inductors (docs : List (String × String)) (reqL maxC freq : ℚ)
    (catalog : List Inductor) : Except PyErr (List (Suggestion Inductor)) := do
  let em := inductorEffectiveMargins docs
  let opts ← catalog.mapM
    (processInductor em.1 em.2.1 em.2.2 (analyze_inductor_heuristics docs).selection_criteria reqL maxC freq)
  pure (rankAndTag (!em.2.2.isEmpty)
    (("📊 Analysis from: ") ++ joinSep (", ") (analyze_inductor_heuristics docs).documents_found)
    opts.reduceOption)

/-! ### `suggest_capacitors` (local-catalog path) -/

/-- `float(capacitor.esr.replace('~', '').replace('low', '5').split('-')[0])`,
`None` when the Python conversion would raise. -/
def parseEsr (esr : String) : Option ℚ :=
  pyFloat (((splitChars '-' (pyReplace (pyReplace esr ("~") ("")) ("low") ("5")).toList).headD []).asString)

def processCapacitor (vm tol : ℚ) (applied : List String)
    (crits : List (String × CapacitorCriteria)) (reqC maxV freq : ℚ) (c : Capacitor) :
    Except PyErr (Option (Suggestion Capacitor)) :=
  if c.voltage < qmul maxV vm then .ok none
  else do
    let ratio ← pydiv c.capacitance reqC
    let lowB ← pydiv 1 tol
    if ratio < lowB ∨ tol < ratio then pure none
    else do
      let score : ℚ := 100
      let ch := applied
      let score := qsub score (qmul (qabs (qsub c.capacitance reqC)) (qc 1 10))
      let se : ℚ × List String :=
        match parseEsr c.esr with
        | none => (score, ch)
        | some v =>
          let pen0 := qmul v (qc 5 10)
          if (100000 : ℚ) < freq then
            if v < 10 then (qsub (qadd score 10) pen0, ch ++ [("🚀 Low ESR for high frequency")])
            else if 50 < v then
              (qsub score (qmul pen0 2), ch ++ [("⚠️ High ESR penalty for high frequency")])
            else (qsub score pen0, ch)
          else (qsub score pen0, ch)
      let vr ← pydiv c.voltage (qmul maxV vm)
      let sc1 := applyUtil se.1 se.2 (capVoltUtil vr)
      let sc2 : ℚ × List String :=
        if (100000 : ℚ) < freq then
          if strIn ("MLCC") c.type then
            (qadd sc1.1 15, sc1.2 ++ [("🎯 MLCC preferred for high frequency")])
          else if strIn ("Polymer") c.type then
            (qadd sc1.1 10, sc1.2 ++ [("🎯 Polymer suitable for high frequency")])
          else sc1
        else
          if strIn ("Electrolytic") c.type ∧ 100 < reqC then
            (qadd sc1.1 5, sc1.2 ++ [("🎯 Electrolytic suitable for bulk capacitance")])
          else sc1
      let sc3 : ℚ × List String :=
        if strIn ("-55") c.temp_range ∧ strIn ("125") c.temp_range then
          (qadd sc2.1 5, sc2.2 ++ [("🌡️ Wide temperature range")])
        else sc2
      let sc4 := crits.foldl (fun (p : ℚ × List String) dc =>
        if dc.2.general_guidelines.any (fun g => strIn (pyLower c.manufacturer) (pyLower g)) then
          (qadd p.1 10, p.2 ++ [("🎯 Recommended manufacturer from heuristics")])
        else p) sc3
      let reason := fmtQ c.capacitance ++ ("µF at ") ++ fmtQ c.voltage ++ ("V (")
        ++ fmt1 vr ++ ("x margin). ") ++ c.type ++ (", ESR=") ++ c.esr ++ ("mΩ. ")
        ++ ("Suitable for ") ++ c.primary_use
      let reason := if sc4.2.isEmpty then reason
        else reason ++ (". Applied: ") ++ joinSep ("; ") (sc4.2.take 2)
      pure (some ⟨c, reason, sc4.1, sc4.2⟩)

def capacitorBaseApplied (docs : List (String × String)) : List String :=
  if (analyze_capacitor_heuristics docs).updated_algorithm then
    [("✅ Using updated algorithm from ")
      ++ natStr (analyze_capacitor_heuristics docs).documents_found.length ++ (" document(s)")]
  else []

def capacitorEffectiveMargins (docs : List (String × String)) : ℚ × ℚ × List String :=
  capacitorMarginFold (analyze_capacitor_heuristics docs).selection_criteria
    (qc 12 10, 2, capacitorBaseApplied docs)

def suggest_capacitors (docs : List (String × String)) (reqC maxV freq : ℚ)
    (catalog : List Capacitor) : Except PyErr (List (Suggestion Capacitor)) := do
  let em := capacitorEffectiveMargins docs
  let opts ← catalog.mapM
    (processCapacitor em.1 em.2.1 em.2.2 (analyze_capacitor_heuristics docs).selection_criteria reqC maxV freq)
  pure (rankAndTag (!em.2.2.isEmpty)
    (("📊 Analysis from: ") ++ joinSep (", ") (analyze_capacitor_heuristics docs).documents_found)
    opts.reduceOption)

/-! ### `suggest_input_capacitors` and `lib/input_capacitor_heuristics.py`

`analyze_input_capacitor_heuristics` is a constant dict (no filesystem
access); only its `scoring_adjustments` feed numeric behavior. -/

def categoryBonus (category : String) : ℚ :=
  if category = ("MLCC") then 10
  else if category = ("Polymer") then 8
  else if category = ("Film") then 6
  else if category = ("Electrolytic") then 4
  else 0

/-- Voltage-derating tiers of `apply_input_capacitor_heuristics`
(`excellent`, `good`, `adequate`, `poor` = `15`, `10`, `5`, `-10`). -/
def applyDeratingTier (r : ℚ) : ℚ × String :=
  if 2 ≤ r then (15, ("⚡ Excellent voltage derating (") ++ fmt1 r ++ ("x)"))
  else if qc 15 10 ≤ r then (10, ("⚡ Good voltage derating (") ++ fmt1 r ++ ("x)"))
  else if qc 12 10 ≤ r then (5, ("⚡ Adequate voltage derating (") ++ fmt1 r ++ ("x)"))
  else (-10, ("⚠️ Poor voltage derating (") ++ fmt1 r ++ ("x)"))

def apply_input_capacitor_heuristics (c : InputCapacitor) (_reqC maxV ripple freq : ℚ) :
    Except PyErr (ℚ × List String) := do
  let catB := categoryBonus c.category
  let adj := catB
  let tags : List String :=
    if 0 < catB then [("📋 ") ++ c.category ++ (" category (+") ++ fmtQ catB ++ (")")] else []
  let vr ← pydiv c.voltage maxV
  let dt := applyDeratingTier vr
  let adj := qadd adj dt.1
  let tags := tags ++ [dt.2]
  let rp : ℚ × List String ←
    if 0 < c.ripple_rating then
      if ripple ≤ c.ripple_rating then
        pure (10, tags ++ [("🌊 Adequate ripple rating (") ++ fmtQ c.ripple_rating
          ++ ("A >= ") ++ fmt1 ripple ++ ("A)")])
      else
        pure (5, tags ++ [("⚠️ Marginal ripple rating (") ++ fmtQ c.ripple_rating
          ++ ("A < ") ++ fmt1 ripple ++ ("A)")])
    else if 0 < c.esr then do
      let est ← pydiv (qmul c.voltage (qc 1 10)) (qdiv c.esr 1000)
      if ripple ≤ est then
        pure (5, tags ++ [("🧮 Estimated adequate ripple capability")])
      else
        pure (0, tags ++ [("⚠️ May have insufficient ripple capability")])
    else pure (0, tags)
  let adj := qadd adj rp.1
  let tags := rp.2
  let fq : ℚ × List String :=
    if (100000 : ℚ) < freq then
      if c.category = ("MLCC") ∧ c.esl < 5 then
        (qadd adj 8, tags ++ [("🔄 Low ESL excellent for high frequency")])
      else if c.category = ("Polymer") ∨ c.category = ("Film") then
        (qadd adj 5, tags ++ [("🔄 Good high-frequency performance")])
      else (adj, tags)
    else
      if c.category = ("Electrolytic") ∨ c.category = ("Polymer") then
        (qadd adj 5, tags ++ [("📊 Good for lower frequency bulk capacitance")])
      else (adj, tags)
  let es : ℚ × List String :=
    if 0 < c.esr then
      if c.esr < 10 then (qadd fq.1 5, fq.2 ++ [("⚡ Low ESR for efficiency")])
      else if 100 < c.esr then (qsub fq.1 3, fq.2 ++ [("⚠️ Higher ESR may impact efficiency")])
      else fq
    else fq
  pure es

/-- `str(e)[:30]` for the exceptions the heuristics call can raise. -/
def pyErrText : PyErr → String
  | .zeroDivision => ("float division by zero")
  | .attributeError => ("AttributeError")
  | .rateLimited => ("Rate limited after 3 retries")
  | .timeoutErr => ("Request timed out after retries")
  | .requestError => ("RequestException")
  | .generic m => m

def processInputCapacitor (applied : List String) (reqC maxV ripple freq : ℚ)
    (c : InputCapacitor) : Except PyErr (Option (Suggestion InputCapacitor)) :=
  if c.voltage < qmul maxV (qc 15 10) then .ok none
  else do
    let ratio ← pydiv c.capacitance reqC
    let lowB ← pydiv 1 3
    if ratio < lowB ∨ (3 : ℚ) < ratio then pure none
    else do
      let score : ℚ := 100
      let ch := applied
      let hr : ℚ × List String :=
        match apply_input_capacitor_heuristics c reqC maxV ripple freq with
        | .ok r => (qadd score r.1, ch ++ r.2)
        | .error e =>
          (score, ch ++ [("⚠️ Heuristics error: ") ++ ((pyErrText e).toList.take 30).asString])
      let cd ← pydiv (qabs (qsub c.capacitance reqC)) reqC
      let score := qsub hr.1 (qmul cd 20)
      let ch := hr.2
      let vr ← pydiv c.voltage maxV
      let score := qadd score (inputCapVoltTier vr)
      let es : ℚ × List String :=
        if 0 < c.esr then
          if c.esr < 20 then (qadd score 8, ch ++ [("⚡ Low ESR for efficiency")])
          else if 100 < c.esr then (qsub score 5, ch)
          else (score, ch)
        else (score, ch)
      let av : ℚ × List String :=
        if strIn ("stock") (pyLower c.availability) then
          (qadd es.1 5, es.2 ++ [("📦 In stock")])
        else es
      let reason := fmtQ c.capacitance ++ ("µF ") ++ c.category ++ (" at ")
        ++ fmtQ c.voltage ++ ("V (") ++ fmt1 vr ++ ("x derating). ESR=")
        ++ fmtQ c.esr ++ ("mΩ. ") ++ c.dielectric ++ (" dielectric, ")
        ++ c.package ++ (" package")
      let reason := if 0 < c.ripple_rating then
          reason ++ (". Ripple rating: ") ++ fmtQ c.ripple_rating ++ ("A")
        else reason
      let reason := if 1 < av.2.length then
          reason ++ (". Applied: ") ++ joinSep ("; ") ((av.2.drop 1).take 2)
        else reason
      pure (some ⟨c, reason, av.1, av.2⟩)

/-- `suggest_input_capacitors` local path: the heuristics module import
succeeds, so `heuristics_available = True` and the base applied list is the
fixed banner. -/
def suggest_input_capacitors (reqC maxV ripple freq : ℚ)
    (catalog : List InputCapacitor) : Except PyErr (List (Suggestion InputCapacitor)) := do
  let applied := [("✅ Using input capacitor design heuristics")]
  let opts ← catalog.mapM (processInputCapacitor applied reqC maxV ripple freq)
  pure (rankAndTag true (("📊 Input capacitor design heuristics applied")) opts.reduceOption)

/-! ### Distributor lookup (`lib/web_component_scraper.py`)

`WEB_SCRAPING_AVAILABLE` is modelled as `True`.  The network is an oracle
mapping the attempt index to an outcome; a page carries the data each parsing
strategy would extract from it (strategy 2's `list(set(...))` ordering is
part of the oracle).  Python attribute lookup on the scraper object is
modelled by membership in the list of names actually bound in `class
WebComponentScraper`: the three helpers `_get_mouser_fallback_components`,
`_get_digikey_fallback_components` and `_extract_digikey_components_advanced`
are defined (unreachably, after the `return`) inside the module-level
function `format_web_components_for_display`, so they are NOT methods of the
class and accessing them raises `AttributeError`. -/

structure WebComponent where
  part_number : String
  manufacturer : String
  description : String
  price : String
  availability : String
  datasheet_url : Option String := none
  distributor : String := ("")
  package : Option String := none
  deriving Repr, DecidableEq

structure PageData where
  /-- Strategy 1: parsed `grid-item` product containers. -/
  gridItems : List WebComponent := []
  /-- Strategy 2: the `(part_number, manufacturer)` pairs after the regex
  scan, `list(set(...))` ordering and index-pairing (`"Various"` filled in). -/
  textParts : List (String × String) := []
  /-- Digikey row extraction result (done by a helper that is itself missing
  from the class, see `search_digikey`). -/
  digikeyRows : List WebComponent := []
  deriving Repr, DecidableEq

inductive ReqOutcome where
  | resp (status : Nat) (page : PageData)
  | timeout
  | transport
  deriving Repr, DecidableEq

/-- `self.max_retries = 3`. -/
def maxRetries : Nat := 3

structure RetryTrace where
  result : Except PyErr PageData
  /-- The `time.sleep` durations (seconds) executed between attempts, in
  order (`_rate_limit` spacing not included). -/
  waits : List Nat
  attempts : Nat
  deriving Repr, DecidableEq

/-- One pass of the `for attempt in range(self.max_retries + 1)` loop of
`_make_request_with_retry`: HTTP 429 backs off `(attempt + 1) * 5` seconds
and retries, `raise_for_status` failures (status ≥ 400), timeouts and
transport errors retry after a fixed 2 seconds, and the attempt after
`max_retries` raises instead of retrying. -/
def makeRequestAux (oracle : Nat → ReqOutcome) : Nat → Nat → RetryTrace
  | 0, _ => ⟨.error (.generic ("Max retries exceeded")), [], 0⟩
  | fuel + 1, attempt =>
    match oracle attempt with
    | .resp status page =>
      if status = 429 then
        if attempt < maxRetries then
          let t := makeRequestAux oracle fuel (attempt + 1)
          ⟨t.result, (attempt + 1) * 5 :: t.waits, t.attempts + 1⟩
        else ⟨.error .rateLimited, [], 1⟩
      else if 400 ≤ status then
        if attempt < maxRetries then
          let t := makeRequestAux oracle fuel (attempt + 1)
          ⟨t.result, 2 :: t.waits, t.attempts + 1⟩
        else ⟨.error .requestError, [], 1⟩
      else ⟨.ok page, [], 1⟩
    | .timeout =>
      if attempt < maxRetries then
        let t := makeRequestAux oracle fuel (attempt + 1)
        ⟨t.result, 2 :: t.waits, t.attempts + 1⟩
      else ⟨.error .timeoutErr, [], 1⟩
    | .transport =>
      if attempt < maxRetries then
        let t := makeRequestAux oracle fuel (attempt + 1)
        ⟨t.result, 2 :: t.waits, t.attempts + 1⟩
      else ⟨.error .requestError, [], 1⟩

def make_request_with_retry (oracle : Nat → ReqOutcome) : RetryTrace :=
  makeRequestAux oracle (maxRetries + 1) 0

/-- The names bound in the body of `class WebComponentScraper` (source lines
40–290). -/
def scraperClassAttrs : List String :=
  [("__init__"), ("setup_session"), ("_rate_limit"), ("_make_request_with_retry"),
   ("search_mouser"), ("search_digikey"), ("search_components")]

def scraperHasAttr (name : String) : Bool := scraperClassAttrs.contains name

/-- Python `str.title()` for ASCII text. -/
def titleChars : Bool → List Char → List Char
  | _, [] => []
  | prev, c :: cs =>
    let isAl := ('a' ≤ c ∧ c ≤ 'z') ∨ ('A' ≤ c ∧ c ≤ 'Z')
    let c2 := if isAl then (if prev then asciiLower c else asciiUpper c) else c
    c2 :: titleChars isAl cs

def pyTitle (s : String) : String := (titleChars false s.toList).asString

/-- The per-type demo rows of the dead `_get_mouser_fallback_components`
helper; an unknown type key falls through to the capacitor rows (the inner
`.get('input_capacitor', ...)` also misses). -/
def mouserFallbackData (ctype : String) : List WebComponent :=
  let mk : String × String × String × String → WebComponent := fun r =>
    ⟨r.1, r.2.1, r.2.2.1, r.2.2.2, ("In Stock"), none, ("Mouser"), none⟩
  if ctype = ("mosfet") then
    [mk (("IRF540NPBF"), ("Infineon Technologies"), ("MOSFET N-CH 100V 33A TO-220AB"), ("$1.85")),
     mk (("IRLB8721PBF"), ("Infineon Technologies"), ("MOSFET N-CH 30V 62A TO-220AB"), ("$2.45")),
     mk (("STP36NF06L"), ("STMicroelectronics"), ("MOSFET N-CH 60V 30A TO-220"), ("$1.92")),
     mk (("FQP30N06L"), ("ON Semiconductor"), ("MOSFET N-CH 60V 32A TO-220"), ("$2.15")),
     mk (("IRFZ44NPBF"), ("Infineon Technologies"), ("MOSFET N-CH 55V 49A TO-220AB"), ("$1.68"))]
  else if ctype = ("inductor") then
    [mk (("SRR1260-220M"), ("Bourns Inc."), ("FIXED IND 22UH 2.3A 65 MOHM"), ("$1.89")),
     mk (("SRN6045-100M"), ("Bourns Inc."), ("FIXED IND 10UH 4.5A 23 MOHM"), ("$1.45")),
     mk (("CDRH104R-470MC"), ("Sumida"), ("FIXED IND 47UH 1.8A 160 MOHM"), ("$2.34")),
     mk (("SRR1005-100M"), ("Bourns Inc."), ("FIXED IND 10UH 0.9A 290 MOHM"), ("$0.95")),
     mk (("CDRH125-220M"), ("Sumida"), ("FIXED IND 22UH 2.8A 75 MOHM"), ("$2.12"))]
  else
    [mk (("EEU-FR1V101"), ("Panasonic"), ("CAP ALUM 100UF 20% 35V RADIAL"), ("$0.84")),
     mk (("UVR1V101MPD"), ("Nichicon"), ("CAP ALUM 100UF 20% 35V RADIAL"), ("$0.91")),
     mk (("25SVP47M"), ("Rubycon"), ("CAP ALUM 47UF 20% 25V RADIAL"), ("$0.52")),
     mk (("ECA-1VHG221"), ("Panasonic"), ("CAP ALUM 220UF 20% 35V RADIAL"), ("$1.25")),
     mk (("URS1E221MPD"), ("Nichicon"), ("CAP ALUM 220UF 20% 25V RADIAL"), ("$1.18"))]

/-- `self._get_mouser_fallback_components(search_term, component_type)`:
attribute resolution on the scraper, then the (dead) helper's body. -/
def mouserFallbackCall (_searchTerm ctype : String) : Except PyErr (List WebComponent) :=
  if scraperHasAttr ("_get_mouser_fallback_components") then .ok (mouserFallbackData ctype)
  else .error .attributeError

/-- Strategy 2 of `search_mouser`: build components from the part-number
pattern matches found in the raw page text. -/
def mouserStrategy2 (page : PageData) (ctype : String) : List WebComponent :=
  (page.textParts.take 5).map (fun p =>
    { part_number := p.1, manufacturer := p.2,
      description := pyTitle (pyReplace ctype ("_") (" ")) ++ (" - ") ++ p.1,
      price := ("See Mouser.com"), availability := ("Check availability"),
      datasheet_url := some (("https://www.mouser.com/c/?q=") ++ p.1),
      distributor := ("Mouser") })

def search_mouser (oracle : Nat → ReqOutcome) (searchTerm ctype : String) :
    Except PyErr (List WebComponent) :=
  let body : Except PyErr (List WebComponent) := do
    let page ← (make_request_with_retry oracle).result
    let comps := page.gridItems
    let comps := if comps.isEmpty then mouserStrategy2 page ctype else comps
    if comps.isEmpty then do
      let fb ← mouserFallbackCall searchTerm ctype
      pure (fb.take 5)
    else pure (comps.take 5)
  match body with
  | .ok r => .ok r
  | .error _ => mouserFallbackCall searchTerm ctype

/-- `self._get_digikey_fallback_components(...)`: the helper is likewise not
a class attribute. -/
def digikeyFallbackCall (_searchTerm _ctype : String) : Except PyErr (List WebComponent) :=
  if scraperHasAttr ("_get_digikey_fallback_components") then .ok []
  else .error .attributeError

/-- `self._extract_digikey_components_advanced(soup, ...)`: also missing from
the class. -/
def digikeyExtractCall (_page : PageData) : Except PyErr (List WebComponent) :=
  if scraperHasAttr ("_extract_digikey_components_advanced") then .ok []
  else .error .attributeError

/-- One attempt of the `for attempt in range(2)` loop of `search_digikey`.
Only `requests.exceptions.RequestException` is caught by the inner handler;
an `AttributeError` from the extraction helper escapes to the outer handler. -/
def digikeyAttempt (oracle : Nat → ReqOutcome) (attempt : Nat) :
    Except PyErr (Option (List WebComponent)) :=
  match oracle attempt with
  | .resp status page =>
    if status = 200 then do
      let comps ← digikeyExtractCall page
      pure (if comps.isEmpty then none else some comps)
    else pure none
  | .timeout => pure none
  | .transport => pure none

def search_digikey (oracle : Nat → ReqOutcome) (searchTerm ctype : String) :
    Except PyErr (List WebComponent) :=
  let body : Except PyErr (List WebComponent) := do
    let r0 ← digikeyAttempt oracle 0
    match r0 with
    | some comps => pure comps
    | none => do
      let r1 ← digikeyAttempt oracle 1
      match r1 with
      | some comps => pure comps
      | none => do
        let fb ← digikeyFallbackCall searchTerm ctype
        pure fb
  match body with
  | .ok r => .ok r
  | .error _ => digikeyFallbackCall searchTerm ctype

/-- `search_components`: sequential Mouser then Digikey search, collecting
non-empty result lists under the distributor key; exceptions propagate. -/
def search_components (oracleM oracleD : Nat → ReqOutcome) (searchTerm ctype : String) :
    Except PyErr (List (String × List WebComponent)) := do
  let m ← search_mouser oracleM searchTerm ctype
  let acc := if m.isEmpty then [] else [(("Mouser"), m)]
  let d ← search_digikey oracleD searchTerm ctype
  pure (if d.isEmpty then acc else acc ++ [(("Digikey"), d)])

/-! ### Auxiliary definitions for the theorem statements -/

/-- `enumerate` starting at `n`. -/
def enumFrom {α : Type} (n : Nat) : List α → List (Nat × α)
  | [] => []
  | x :: xs => (n, x) :: enumFrom (n + 1) xs

/-- The stable descending sort with each candidate tagged by its position in
the candidate (catalog-order) list. -/
def sortEnumDesc {α : Type} (l : List (Suggestion α)) : List (Nat × Suggestion α) :=
  sortDescBy (fun p => p.2.score) (enumFrom 0 l)

def scoresOf {α : Type} (l : List (Suggestion α)) : List ℚ := l.map Suggestion.score

def componentsOf {α : Type} (l : List (Suggestion α)) : List α := l.map Suggestion.component

/-- Descending-with-stable-ties: scores never increase, and equal scores keep
their candidate order. -/
def stableDescRel {α : Type} (a b : Nat × Suggestion α) : Prop :=
  b.2.score ≤ a.2.score ∧ (a.2.score = b.2.score → a.1 < b.1)

/-- Argument bundles, for stating that each suggest operation is a pure
function of catalog + heuristics documents + parameters. -/
def InductorArgs := List (String × String) × ℚ × ℚ × ℚ × List Inductor

def runInductors (p : InductorArgs) : Except PyErr (List (Suggestion Inductor)) :=
  suggest_inductors p.1 p.2.1 p.2.2.1 p.2.2.2.1 p.2.2.2.2

def MosfetArgs := List (String × String) × ℚ × ℚ × ℚ × List MOSFET

def runMosfets (p : MosfetArgs) : Except PyErr (List (Suggestion MOSFET)) :=
  suggest_mosfets p.1 p.2.1 p.2.2.1 p.2.2.2.1 p.2.2.2.2

def CapacitorArgs := List (String × String) × ℚ × ℚ × ℚ × List Capacitor

def runCapacitors (p : CapacitorArgs) : Except PyErr (List (Suggestion Capacitor)) :=
  suggest_capacitors p.1 p.2.1 p.2.2.1 p.2.2.2.1 p.2.2.2.2

def InputCapacitorArgs := ℚ × ℚ × ℚ × ℚ × List InputCapacitor

def runInputCapacitors (p : InputCapacitorArgs) : Except PyErr (List (Suggestion InputCapacitor)) :=
  suggest_input_capacitors p.1 p.2.1 p.2.2.1 p.2.2.2.1 p.2.2.2.2

/-- A server that answers HTTP 429 to every request. -/
def oracle429 : Nat → ReqOutcome := fun _ => .resp 429 {}

/-- A server that always answers 200 with a page from which no strategy
extracts anything. -/
def oracleEmpty : Nat → ReqOutcome := fun _ => .resp 200 {}

/-- The fixture of the end-to-end scenario: `L=470µH, I=2.5A, Isat=3.0A,
DCR=280mΩ`. -/
def ind470 : Inductor :=
  ⟨("L-470"), ("Coilcraft"), 470, qc 25 10, 280, 3, ("SMD"), false, (""), ("")⟩

/-- The boundary fixture of the hard-filter test: `inductance=220µH,
current=3.2A, satCurrent=4.5A`. -/
def indC6 : Inductor :=
  ⟨("L-220"), ("Bourns"), 220, qc 16 5, 9, qc 9 2, ("SMD"), false, (""), ("")⟩

/-- A plausible input capacitor used to exercise `suggest_input_capacitors`
at a zero required capacitance. -/
def inCapFix : InputCapacitor :=
  ⟨("C-IN1"), ("Murata"), ("MLCC"), ("X7R"), 10, 25, 5, 1, 2, 0, ("0805"), 0,
   ("In Stock"), ("")⟩

/-- The literal margin-override line of the specification. -/
def line30 : String := ("Use 30% current margin for derating")

/-- A one-document heuristics set whose only line is `line30`. -/
def docs30 : List (String × String) := [(("margins.docx"), line30)]

/-- A heuristics set that contains `line30`, preceded (in the same bucket) by
another current-margin guideline. -/
def docsInterf : List (String × String) :=
  [(("notes.docx"), ("Ensure 50% margin on current rating\n") ++ line30)]

/-- The utilization rule asserted by the specification for every part
family: a flat `+5` exactly in the band `[1.2, 1.8]`, and a negative
adjustment exactly above `2`. -/
def utilClaimHolds (util : ℚ → ℚ) : Prop :=
  (∀ r : ℚ, 0 < r → (util r = 5 ↔ (qc 12 10 ≤ r ∧ r ≤ qc 18 10))) ∧
  (∀ r : ℚ, 0 < r → (util r < 0 ↔ 2 < r))

/-! ## Theorems

First the bridge lemmas identifying the kernel-computable arithmetic wrappers
with the field operations of `ℚ`, then generic lemmas about the stable
descending sort, then the claim theorems. -/

theorem den_q_ne (a : ℚ) : ((a.den : ℚ)) ≠ 0 := by
  exact_mod_cast (Rat.den_pos a).ne'

theorem num_eq_mul_den (a : ℚ) : ((a.num : ℚ)) = a * a.den :=
  (div_eq_iff (den_q_ne a)).1 (Rat.num_div_den a)

theorem qadd_eq (a b : ℚ) : qadd a b = a + b := by
  rw [qadd, Rat.divInt_eq_div]
  push_cast
  rw [div_eq_iff (mul_ne_zero (den_q_ne a) (den_q_ne b)), num_eq_mul_den, num_eq_mul_den]
  ring

theorem qsub_eq (a b : ℚ) : qsub a b = a - b := by
  rw [qsub, Rat.divInt_eq_div]
  push_cast
  rw [div_eq_iff (mul_ne_zero (den_q_ne a) (den_q_ne b)), num_eq_mul_den, num_eq_mul_den]
  ring

theorem qmul_eq (a b : ℚ) : qmul a b = a * b := by
  rw [qmul, Rat.divInt_eq_div]
  push_cast
  rw [div_eq_iff (mul_ne_zero (den_q_ne a) (den_q_ne b)), num_eq_mul_den, num_eq_mul_den]
  ring

theorem qdiv_eq (a b : ℚ) : qdiv a b = a / b := by
  rcases eq_or_ne b 0 with rfl | hb
  · show Rat.divInt _ (a.den * (0 : ℚ).num) = _
    norm_num
  · have hbn : ((b.num : ℚ)) ≠ 0 := by
      exact_mod_cast Rat.num_ne_zero.mpr hb
    rw [qdiv, Rat.divInt_eq_div]
    push_cast
    rw [div_eq_iff (mul_ne_zero (den_q_ne a) hbn), num_eq_mul_den, num_eq_mul_den]
    field_simp
    rw [num_eq_mul_den a, num_eq_mul_den b]
    ring

theorem qabs_eq (a : ℚ) : qabs a = |a| := by
  rcases lt_or_le a 0 with h | h
  · rw [qabs, if_pos h, abs_of_neg h]
  · rw [qabs, if_neg (not_lt.mpr h), abs_of_nonneg h]

theorem qc_eq (n d : Int) : qc n d = (n : ℚ) / (d : ℚ) := by
  rw [qc, Rat.divInt_eq_div]

theorem pydiv_ok {b : ℚ} (a : ℚ) (hb : b ≠ 0) : pydiv a b = .ok (a / b) := by
  rw [pydiv, if_neg hb, qdiv_eq]

theorem pydiv_zero (a : ℚ) : pydiv a 0 = .error .zeroDivision := by
  rw [pydiv, if_pos rfl]

/-! ### Stable-sort lemmas -/

theorem insertDescBy_mem {α : Type} (key : α → ℚ) (x z : α) :
    ∀ l : List α, z ∈ insertDescBy key x l → z = x ∨ z ∈ l := by
  intro l
  induction l with
  | nil =>
    intro h
    rw [insertDescBy] at h
    exact Or.inl (List.mem_singleton.mp h)
  | cons y ys ih =>
    intro h
    rw [insertDescBy] at h
    by_cases hc : key x ≤ key y
    · rw [if_pos hc] at h
      rcases List.mem_cons.mp h with rfl | h2
      · exact Or.inr (List.mem_cons_self _ _)
      · rcases ih h2 with rfl | h3
        · exact Or.inl rfl
        · exact Or.inr (List.mem_cons_of_mem _ h3)
    · rw [if_neg hc] at h
      rcases List.mem_cons.mp h with rfl | h2
      · exact Or.inl rfl
      · exact Or.inr h2

theorem insertDescBy_pairwise {α : Type} (x : Nat × Suggestion α) :
    ∀ l : List (Nat × Suggestion α), l.Pairwise stableDescRel →
      (∀ z ∈ l, z.1 < x.1) →
      (insertDescBy (fun p => p.2.score) x l).Pairwise stableDescRel := by
  intro l
  induction l with
  | nil =>
    intro _ _
    rw [insertDescBy]
    exact List.pairwise_singleton _ _
  | cons y ys ih =>
    intro hp hidx
    rw [insertDescBy]
    rcases List.pairwise_cons.mp hp with ⟨hy, hys⟩
    by_cases hc : x.2.score ≤ y.2.score
    · rw [if_pos hc]
      refine List.pairwise_cons.mpr ⟨?_, ih hys ?_⟩
      · intro z hz
        rcases insertDescBy_mem _ x z ys hz with rfl | h3
        · exact ⟨hc, fun _ => hidx y (List.mem_cons_self _ _)⟩
        · exact hy z h3
      · intro z hz
        exact hidx z (List.mem_cons_of_mem _ hz)
    · rw [if_neg hc]
      have hlt : y.2.score < x.2.score := lt_of_not_le hc
      refine List.pairwise_cons.mpr ⟨?_, hp⟩
      intro z hz
      rcases List.mem_cons.mp hz with rfl | h3
      · exact ⟨le_of_lt hlt, fun he => absurd he (ne_of_gt hlt)⟩
      · have := hy z h3
        exact ⟨le_trans this.1 (le_of_lt hlt),
          fun he => absurd he (ne_of_gt (lt_of_le_of_lt this.1 hlt))⟩

theorem sortFold_pairwise {α : Type} :
    ∀ (l : List (Suggestion α)) (n : Nat) (acc : List (Nat × Suggestion α)),
      acc.Pairwise stableDescRel → (∀ z ∈ acc, z.1 < n) →
      ((enumFrom n l).foldl (fun a x => insertDescBy (fun p => p.2.score) x a) acc).Pairwise
        stableDescRel := by
  intro l
  induction l with
  | nil =>
    intro n acc hp _
    exact hp
  | cons s ss ih =>
    intro n acc hp hidx
    rw [enumFrom, List.foldl_cons]
    refine ih (n + 1) _ (insertDescBy_pairwise _ acc hp hidx) ?_
    intro z hz
    rcases insertDescBy_mem _ (n, s) z acc hz with rfl | h2
    · exact Nat.lt_succ_self n
    · exact Nat.lt_succ_of_lt (hidx z h2)

theorem sortEnumDesc_pairwise {α : Type} (l : List (Suggestion α)) :
    (sortEnumDesc l).Pairwise stableDescRel := by
  rw [sortEnumDesc, sortDescBy]
  exact sortFold_pairwise l 0 [] (List.Pairwise.nil) (by intro z hz; cases hz)

theorem insertDescBy_map_snd {α : Type} (x : Nat × Suggestion α) :
    ∀ l : List (Nat × Suggestion α),
      (insertDescBy (fun p => p.2.score) x l).map Prod.snd =
        insertDescBy Suggestion.score x.2 (l.map Prod.snd) := by
  intro l
  induction l with
  | nil => rfl
  | cons y ys ih =>
    show (insertDescBy (fun p => p.2.score) x (y :: ys)).map Prod.snd =
      insertDescBy Suggestion.score x.2 (y.2 :: ys.map Prod.snd)
    rw [insertDescBy, insertDescBy]
    by_cases hc : x.2.score ≤ y.2.score
    · rw [if_pos hc, if_pos hc, List.map_cons, ih]
    · rw [if_neg hc, if_neg hc]
      rfl

theorem sortFold_map_snd {α : Type} :
    ∀ (l : List (Suggestion α)) (n : Nat) (acc : List (Nat × Suggestion α)),
      ((enumFrom n l).foldl (fun a x => insertDescBy (fun p => p.2.score) x a) acc).map Prod.snd =
        l.foldl (fun a x => insertDescBy Suggestion.score x a) (acc.map Prod.snd) := by
  intro l
  induction l with
  | nil =>
    intro n acc
    rfl
  | cons s ss ih =>
    intro n acc
    rw [enumFrom, List.foldl_cons, List.foldl_cons, ih, insertDescBy_map_snd]

theorem sortEnumDesc_map_snd {α : Type} (l : List (Suggestion α)) :
    (sortEnumDesc l).map Prod.snd = sortDescBy Suggestion.score l := by
  rw [sortEnumDesc, sortDescBy, sortDescBy]
  exact sortFold_map_snd l 0 []

theorem attachTag_scores {α : Type} (c : Bool) (t : String) (l : List (Suggestion α)) :
    scoresOf (attachTag c t l) = scoresOf l := by
  cases l with
  | nil => rfl
  | cons s rest =>
    rw [attachTag]
    by_cases hc : c = true
    · rw [if_pos hc]
      rfl
    · rw [if_neg hc]

theorem attachTag_components {α : Type} (c : Bool) (t : String) (l : List (Suggestion α)) :
    componentsOf (attachTag c t l) = componentsOf l := by
  cases l with
  | nil => rfl
  | cons s rest =>
    rw [attachTag]
    by_cases hc : c = true
    · rw [if_pos hc]
      rfl
    · rw [if_neg hc]

theorem rank_scores {α : Type} (c : Bool) (t : String) (l : List (Suggestion α)) :
    scoresOf (rankAndTag c t l) = ((sortEnumDesc l).map (fun p => p.2.score)).take 5 := by
  rw [rankAndTag]
  show scoresOf ((attachTag c t (sortDescBy Suggestion.score l)).take 5) = _
  rw [scoresOf, List.map_take]
  have h1 : (attachTag c t (sortDescBy Suggestion.score l)).map Suggestion.score =
      (sortDescBy Suggestion.score l).map Suggestion.score := attachTag_scores c t _
  rw [h1, ← sortEnumDesc_map_snd, List.map_map]
  rfl

theorem rank_components {α : Type} (c : Bool) (t : String) (l : List (Suggestion α)) :
    componentsOf (rankAndTag c t l) = ((sortEnumDesc l).map (fun p => p.2.component)).take 5 := by
  rw [rankAndTag]
  show componentsOf ((attachTag c t (sortDescBy Suggestion.score l)).take 5) = _
  rw [componentsOf, List.map_take]
  have h1 : (attachTag c t (sortDescBy Suggestion.score l)).map Suggestion.component =
      (sortDescBy Suggestion.score l).map Suggestion.component := attachTag_components c t _
  rw [h1, ← sortEnumDesc_map_snd, List.map_map]
  rfl

theorem rank_length {α : Type} (c : Bool) (t : String) (l : List (Suggestion α)) :
    (rankAndTag c t l).length ≤ 5 := by
  rw [rankAndTag]
  calc ((attachTag c t (sortDescBy Suggestion.score l)).take 5).length
      ≤ 5 := by rw [List.length_take]; exact min_le_left _ _

theorem rank_scores_sorted {α : Type} (c : Bool) (t : String) (l : List (Suggestion α)) :
    (scoresOf (rankAndTag c t l)).Pairwise (fun a b => b ≤ a) := by
  rw [rank_scores]
  refine List.Pairwise.sublist (List.take_sublist _ _) ?_
  exact List.Pairwise.map _ (fun a b h => h.1) (sortEnumDesc_pairwise l)

/-! ### Claim theorems -/

/-- C10: `reload_component_data` rebinds only the MOSFET, output-capacitor
and inductor library globals; `INPUT_CAPACITOR_LIBRARY` is left unchanged by
every call. -/
theorem claim_C10 : ∀ (env : CsvEnv) (st : LibState),
    (reload_component_data env st).INPUT_CAPACITOR_LIBRARY = st.INPUT_CAPACITOR_LIBRARY ∧
    (reload_component_data env st).MOSFET_LIBRARY = load_mosfets_from_csv env.mosfetSrc ∧
    (reload_component_data env st).CAPACITOR_LIBRARY = load_capacitors_from_csv env.capacitorSrc ∧
    (reload_component_data env st).INDUCTOR_LIBRARY = load_inductors_from_csv env.inductorSrc :=
  fun _ _ => ⟨rfl, rfl, rfl, rfl⟩

/-- C2 counterexample: at the input-capacitor kind, loading with no existing
candidate path returns the empty list — not a non-empty built-in fallback
list — so the claim fails for that kind. -/
theorem claim_C2_counterexample : load_input_capacitors_from_csv none = [] := rfl

/-- C2 (amended): for the MOSFET, output-capacitor and inductor kinds, load
with no existing path or a parse error returns the non-empty built-in
fallback list (`load('mosfet')` returns exactly `get_fallback_mosfets`); the
input-capacitor kind instead returns the empty list in both failure modes. -/
theorem claim_C2 :
    load_mosfets_from_csv none = get_fallback_mosfets ∧
    (∀ e : PyErr, load_mosfets_from_csv (some (.error e)) = get_fallback_mosfets) ∧
    get_fallback_mosfets ≠ [] ∧
    load_capacitors_from_csv none = get_fallback_capacitors ∧
    (∀ e : PyErr, load_capacitors_from_csv (some (.error e)) = get_fallback_capacitors) ∧
    get_fallback_capacitors ≠ [] ∧
    load_inductors_from_csv none = get_fallback_inductors ∧
    (∀ e : PyErr, load_inductors_from_csv (some (.error e)) = get_fallback_inductors) ∧
    get_fallback_inductors ≠ [] ∧
    load_input_capacitors_from_csv none = [] ∧
    (∀ e : PyErr, load_input_capacitors_from_csv (some (.error e)) = []) :=
  ⟨rfl, fun _ => rfl, by decide, rfl, fun _ => rfl, by decide, rfl, fun _ => rfl, by decide,
   rfl, fun _ => rfl⟩

/-- C1: under a server that answers 429 to every attempt (and likewise under
a server whose pages yield zero parsed results), `search_mouser`,
`search_digikey` and `search_components` raise `AttributeError` instead of
returning the static fallback list: the fallback helpers are bound inside
`format_web_components_for_display`, not on `WebComponentScraper`, so
`self._get_mouser_fallback_components` / `self._get_digikey_fallback_components`
fail attribute lookup in the very handler that was meant to recover. -/
theorem claim_C1 :
    (∀ term ctype : String, search_mouser oracle429 term ctype = .error .attributeError) ∧
    (∀ term ctype : String, search_mouser oracleEmpty term ctype = .error .attributeError) ∧
    (∀ term ctype : String, search_digikey oracleEmpty term ctype = .error .attributeError) ∧
    (∀ term ctype : String,
      search_components oracle429 oracle429 term ctype = .error .attributeError) ∧
    scraperHasAttr ("_get_mouser_fallback_components") = false ∧
    mouserFallbackData ("mosfet") ≠ [] :=
  ⟨fun _ _ => rfl, fun _ _ => rfl, fun _ _ => rfl, fun _ _ => rfl, rfl, by decide⟩

/-- C3: with a required value of zero the suggest operations raise
`ZeroDivisionError` at the unguarded ratio division (`cap_ratio = ... /
required_capacitance_uf`, `ind_ratio = ... / required_inductance_uh`) instead
of treating the zero as "no match". -/
theorem claim_C3 :
    suggest_inductors [] 0 0 65000 get_fallback_inductors = .error .zeroDivision ∧
    suggest_capacitors [] 0 0 65000 get_fallback_capacitors = .error .zeroDivision ∧
    suggest_input_capacitors 0 0 1 65000 [inCapFix] = .error .zeroDivision := by
  refine ⟨by decide, by decide, by decide⟩

/-- C4 counterexample: a heuristics document set that contains the literal
line `"Use 30% current margin for derating"` but whose current-rating bucket
has an earlier guideline mentioning a margin (`"Ensure 50% margin on current
rating"`): the inductor family's effective current margin becomes `1.5`, not
`1.30`. -/
theorem claim_C4_counterexample :
    (pyLines ((docsInterf.headD ((""), (""))).2)).contains line30 = true ∧
    (inductorEffectiveMargins docsInterf).1 = qc 15 10 ∧
    (inductorEffectiveMargins docsInterf).1 ≠ qc 13 10 := by
  refine ⟨by decide, by decide, by decide⟩

/-- C4 (amended): when the literal line `"Use 30% current margin for
derating"` is the first current-bucket guideline carrying an in-range margin
number, the inductor family's effective current margin equals `1.30`
(overriding the default `1.2`).  For the MOSFET family the line is classified
as a voltage-derating guideline (keyword `derating` hits the voltage bucket
first), so it overrides the voltage margin to `1.30` while the effective
current margin remains the default, which is already `1.30`. -/
theorem claim_C4 :
    (inductorEffectiveMargins docs30).1 = qc 13 10 ∧
    (analyze_mosfet_content line30).voltage_derating_guidelines = [line30] ∧
    (analyze_mosfet_content line30).current_derating_guidelines = [] ∧
    (mosfetEffectiveMargins docs30).1 = qc 13 10 ∧
    (mosfetEffectiveMargins docs30).2.1 = qc 13 10 ∧
    (analyze_inductor_content line30).current_rating_guidelines = [line30] := by
  refine ⟨by decide, by decide, by decide, by decide, by decide, by decide⟩

/-- C5: the end-to-end scenario — required 470 µH, 2.0 A, 65 kHz, no
heuristics documents, a one-inductor catalog `{470 µH, 2.5 A, Isat 3.0 A,
DCR 280 mΩ}` — yields exactly one suggestion, with score
`100 - 0 - 280·0.01 = 97.2` (no frequency bonus, no utilization adjustment)
and a reason string containing `"470"` and `"2.5A"`. -/
theorem claim_C5 :
    ∃ s : Suggestion Inductor,
      suggest_inductors [] 470 2 65000 [ind470] = .ok [s] ∧
      s.component = ind470 ∧
      s.score = 486 / 5 ∧
      strIn ("470") s.reason = true ∧
      strIn ("2.5A") s.reason = true := by
  refine ⟨⟨ind470,
    ("470µH, rated for 2.5A (1.0x margin), Isat=3A. DCR=280mΩ. SMD package"),
    qc 486 5, []⟩, by decide, rfl, ?_, by decide, by decide⟩
  rw [qc_eq]
  norm_num

/-! ### C9: retry/backoff -/

theorem makeRequestAux_attempts_le (oracle : Nat → ReqOutcome) :
    ∀ (fuel attempt : Nat), (makeRequestAux oracle fuel attempt).attempts ≤ fuel := by
  intro fuel
  induction fuel with
  | zero =>
    intro attempt
    exact Nat.le_refl 0
  | succ f ih =>
    intro attempt
    rw [makeRequestAux]
    cases oracle attempt with
    | resp status page =>
      dsimp only
      by_cases h429 : status = 429
      · rw [if_pos h429]
        by_cases hlt : attempt < maxRetries
        · rw [if_pos hlt]
          exact Nat.succ_le_succ (ih (attempt + 1))
        · rw [if_neg hlt]
          exact Nat.succ_le_succ (Nat.zero_le f)
      · rw [if_neg h429]
        by_cases h400 : 400 ≤ status
        · rw [if_pos h400]
          by_cases hlt : attempt < maxRetries
          · rw [if_pos hlt]
            exact Nat.succ_le_succ (ih (attempt + 1))
          · rw [if_neg hlt]
            exact Nat.succ_le_succ (Nat.zero_le f)
        · rw [if_neg h400]
          exact Nat.succ_le_succ (Nat.zero_le f)
    | timeout =>
      dsimp only
      by_cases hlt : attempt < maxRetries
      · rw [if_pos hlt]
        exact Nat.succ_le_succ (ih (attempt + 1))
      · rw [if_neg hlt]
        exact Nat.succ_le_succ (Nat.zero_le f)
    | transport =>
      dsimp only
      by_cases hlt : attempt < maxRetries
      · rw [if_pos hlt]
        exact Nat.succ_le_succ (ih (attempt + 1))
      · rw [if_neg hlt]
        exact Nat.succ_le_succ (Nat.zero_le f)

/-- C9 counterexample: the all-429 wait schedule is `5 s, 10 s, 15 s` —
`(attempt + 1) * 5`, an arithmetic progression — which is not exponentially
increasing: no base and ratio `> 1` fit all three waits. -/
theorem claim_C9_counterexample :
    (make_request_with_retry oracle429).waits = [5, 10, 15] ∧
    ¬ ∃ b r : ℚ, 1 < r ∧
        (make_request_with_retry oracle429).waits.map (fun w => (w : ℚ)) = [b, b * r, b * r * r] := by
  refine ⟨by decide, ?_⟩
  rintro ⟨b, r, _, heq⟩
  have hw : (make_request_with_retry oracle429).waits = [5, 10, 15] := by decide
  rw [hw] at heq
  simp at heq
  obtain ⟨h1, h2, h3⟩ := heq
  subst h1
  have hr2 : r = 2 := by linarith
  subst hr2
  norm_num at h3

/-- C9 (amended): on HTTP 429 the retry loop makes at most
`max_retries + 1 = 4` attempts, sleeping `(attempt + 1) * 5` seconds between
attempts — a strictly (linearly, not exponentially) increasing backoff of
5 s, 10 s, 15 s — and raises a failure (`"Rate limited after 3 retries"`)
after exhausting the retries. -/
theorem claim_C9 :
    (make_request_with_retry oracle429).result = .error .rateLimited ∧
    (make_request_with_retry oracle429).waits = [5, 10, 15] ∧
    (make_request_with_retry oracle429).waits =
      (List.range maxRetries).map (fun n => (n + 1) * 5) ∧
    (make_request_with_retry oracle429).attempts = maxRetries + 1 ∧
    (make_request_with_retry oracle429).waits.Pairwise (fun a b => a < b) ∧
    (∀ oracle : Nat → ReqOutcome,
      (make_request_with_retry oracle).attempts ≤ maxRetries + 1) := by
  refine ⟨by decide, by decide, by decide, by decide, by decide, ?_⟩
  intro oracle
  exact makeRequestAux_attempts_le oracle (maxRetries + 1) 0

/-- C6: the hard filter of `suggest_inductors` admits an entry iff its
current rating and saturation current are both at least
`targetCurrent × currentMargin` and the inductance ratio lies within
`[1 - tolerance, 1 + tolerance]`; in particular the boundary fixture
(`220 µH, 3.2 A, Isat 4.5 A` against `220 µH, 3.0 A, margin 1.2`) is
excluded because `3.2 < 3.6`, and a singleton catalog holding it yields no
suggestions. -/
theorem claim_C6 :
    (∀ cm tol maxC reqL : ℚ, ∀ ind : Inductor, reqL ≠ 0 →
      (inductorHardFilter cm tol reqL maxC ind = .ok true ↔
        (maxC * cm ≤ ind.current ∧ maxC * cm ≤ ind.sat_current ∧
         1 - tol ≤ ind.inductance / reqL ∧ ind.inductance / reqL ≤ 1 + tol))) ∧
    inductorHardFilter (qc 12 10) 4 220 3 indC6 = .ok false ∧
    suggest_inductors [] 220 3 65000 [indC6] = .ok [] := by
  refine ⟨?_, by decide, by decide⟩
  intro cm tol maxC reqL ind hreq
  rw [inductorHardFilter]
  by_cases h1 : ind.current < qmul maxC cm
  · rw [if_pos h1]
    rw [qmul_eq] at h1
    exact iff_of_false (by decide) (fun hc => absurd hc.1 (not_le.mpr h1))
  · rw [if_neg h1]
    by_cases h2 : ind.sat_current < qmul maxC cm
    · rw [if_pos h2]
      rw [qmul_eq] at h2
      exact iff_of_false (by decide) (fun hc => absurd hc.2.1 (not_le.mpr h2))
    · rw [if_neg h2]
      rw [not_lt, qmul_eq] at h1 h2
      rw [pydiv_ok _ hreq]
      simp only [Bind.bind, Except.bind]
      rw [qsub_eq, qadd_eq]
      by_cases h3 : ind.inductance / reqL < 1 - tol ∨ 1 + tol < ind.inductance / reqL
      · rw [if_pos h3]
        refine iff_of_false (by decide) ?_
        rintro ⟨-, -, hlo, hhi⟩
        rcases h3 with h3 | h3
        · exact absurd hlo (not_le.mpr h3)
        · exact absurd hhi (not_le.mpr h3)
      · rw [if_neg h3]
        push_neg at h3
        exact iff_of_true rfl ⟨h1, h2, h3.1, h3.2⟩

/-- C6 witness: the filter characterization applied to the end-to-end
fixture `ind470` at `required = 470 µH, maxCurrent = 2 A, margin 1.2`. -/
theorem claim_C6_witness :
    inductorHardFilter (qc 12 10) 4 470 2 ind470 = .ok true ↔
      ((2 : ℚ) * qc 12 10 ≤ ind470.current ∧ (2 : ℚ) * qc 12 10 ≤ ind470.sat_current ∧
       1 - 4 ≤ ind470.inductance / 470 ∧ ind470.inductance / 470 ≤ 1 + 4) :=
  claim_C6.1 (qc 12 10) 4 2 470 ind470 (by norm_num)

/-! ### C7: utilization bonus/penalty -/

theorem bandUtilSpec (t hi pen : ℚ) (tag : Option String) (r : ℚ)
    (hpen : 0 < pen) (hhi : hi ≤ t) (u : ℚ × Option String)
    (hu : u = if t < r then (-(qmul (qsub r t) pen), none)
      else if qc 12 10 ≤ r ∧ r ≤ hi then (5, tag) else (0, none)) :
    (u.1 = 5 ↔ (qc 12 10 ≤ r ∧ r ≤ hi)) ∧ (u.1 < 0 ↔ t < r) ∧
      (t < r → u.1 = -((r - t) * pen)) := by
  subst hu
  by_cases ht : t < r
  · rw [if_pos ht]
    have hneg : -(qmul (qsub r t) pen) < 0 := by
      rw [qmul_eq, qsub_eq]
      exact neg_neg_of_pos (mul_pos (sub_pos.mpr ht) hpen)
    refine ⟨iff_of_false ?_ ?_, iff_of_true hneg ht, fun _ => by rw [qmul_eq, qsub_eq]⟩
    · intro he
      have he2 : -(qmul (qsub r t) pen) = (5 : ℚ) := he
      rw [he2] at hneg
      norm_num at hneg
    · rintro ⟨-, hband⟩
      exact absurd ht (not_lt.mpr (le_trans hband hhi))
  · rw [if_neg ht]
    by_cases hb : qc 12 10 ≤ r ∧ r ≤ hi
    · rw [if_pos hb]
      exact ⟨iff_of_true rfl hb, iff_of_false (by norm_num) ht, fun hc => absurd hc ht⟩
    · rw [if_neg hb]
      exact ⟨iff_of_false (by norm_num) hb, iff_of_false (lt_irrefl 0) ht,
        fun hc => absurd hc ht⟩

/-- C7 counterexample: the output-capacitor voltage utilization breaks the
claimed rule — at ratio `2.5` the code applies no penalty at all (the
adjustment is `0`, not negative), since its penalty threshold is `3×` and its
bonus band is `[1.2, 2.0]`. -/
theorem claim_C7_counterexample : ¬ utilClaimHolds (fun r => (capVoltUtil r).1) := by
  intro h
  have h0 : (capVoltUtil (qc 5 2)).1 = 0 := by decide
  have h2 : (capVoltUtil (qc 5 2)).1 < 0 := (h.2 (qc 5 2) (by decide)).mpr (by decide)
  rw [h0] at h2
  exact absurd h2 (by norm_num)

/-- C7 (amended): the MOSFET voltage/current and inductor current
utilization adjustments give `+5` exactly in the band `[1.2, 1.8]` and a
penalty linear in the excess exactly above `2×`; the output-capacitor voltage
utilization instead uses the band `[1.2, 2.0]` with the linear penalty only
above `3×`; and the input-capacitor family uses a tiered derating adjustment
(`+15` at ratio ≥ 2, `+10` at ratio ≥ 1.5, `-5` below) in place of the
band/penalty rule. -/
theorem claim_C7 :
    (∀ r : ℚ,
      ((mosfetVoltUtil r).1 = 5 ↔ (qc 12 10 ≤ r ∧ r ≤ qc 18 10)) ∧
      ((mosfetVoltUtil r).1 < 0 ↔ 2 < r) ∧
      (2 < r → (mosfetVoltUtil r).1 = -((r - 2) * 10))) ∧
    (∀ r : ℚ,
      ((mosfetCurUtil r).1 = 5 ↔ (qc 12 10 ≤ r ∧ r ≤ qc 18 10)) ∧
      ((mosfetCurUtil r).1 < 0 ↔ 2 < r) ∧
      (2 < r → (mosfetCurUtil r).1 = -((r - 2) * 5))) ∧
    (∀ r : ℚ,
      ((inductorCurUtil r).1 = 5 ↔ (qc 12 10 ≤ r ∧ r ≤ qc 18 10)) ∧
      ((inductorCurUtil r).1 < 0 ↔ 2 < r) ∧
      (2 < r → (inductorCurUtil r).1 = -((r - 2) * 10))) ∧
    (∀ r : ℚ,
      ((capVoltUtil r).1 = 5 ↔ (qc 12 10 ≤ r ∧ r ≤ 2)) ∧
      ((capVoltUtil r).1 < 0 ↔ 3 < r) ∧
      (3 < r → (capVoltUtil r).1 = -((r - 3) * 10))) ∧
    (∀ r : ℚ,
      (2 ≤ r → inputCapVoltTier r = 15) ∧
      (qc 15 10 ≤ r → r < 2 → inputCapVoltTier r = 10) ∧
      (r < qc 15 10 → inputCapVoltTier r = -5)) := by
  refine ⟨fun r => bandUtilSpec 2 (qc 18 10) 10 _ r (by norm_num) (by rw [qc_eq]; norm_num) _ rfl,
    fun r => bandUtilSpec 2 (qc 18 10) 5 _ r (by norm_num) (by rw [qc_eq]; norm_num) _ rfl,
    fun r => bandUtilSpec 2 (qc 18 10) 10 _ r (by norm_num) (by rw [qc_eq]; norm_num) _ rfl,
    fun r => bandUtilSpec 3 2 10 _ r (by norm_num) (by norm_num) _ rfl,
    ?_⟩
  intro r
  refine ⟨?_, ?_, ?_⟩
  · intro h2
    rw [inputCapVoltTier, if_pos h2]
  · intro h15 hlt2
    rw [inputCapVoltTier, if_neg (not_le.mpr hlt2), if_pos h15]
  · intro hlt
    rw [inputCapVoltTier, if_neg (not_le.mpr (lt_of_lt_of_le hlt (by rw [qc_eq]; norm_num))),
      if_neg (not_le.mpr hlt)]

/-- C7 witness: the characterizations applied at the concrete ratios `3`
(penalty region of the MOSFET voltage rule) and `1` (poor-derating tier of
the input-capacitor rule). -/
theorem claim_C7_witness :
    (mosfetVoltUtil 3).1 = -((3 - 2) * 10) ∧ inputCapVoltTier 1 = -5 :=
  ⟨(claim_C7.1 3).2.2 (by norm_num), (claim_C7.2.2.2.2 1).2.2 (by decide)⟩

/-- C8: each suggest operation is a pure function of (heuristics documents,
parameters, catalog) — two calls on equal inputs return equal results — and
its ranked output has at most 5 elements, scores in descending order, and is
the 5-truncation of the stable descending sort of the candidate list: equal
scores keep candidate (catalog) order, as witnessed by the strictly
increasing candidate indices in `sortEnumDesc`. -/
theorem claim_C8 :
    (∀ p q : InductorArgs, p = q → runInductors p = runInductors q) ∧
    (∀ p q : MosfetArgs, p = q → runMosfets p = runMosfets q) ∧
    (∀ p q : CapacitorArgs, p = q → runCapacitors p = runCapacitors q) ∧
    (∀ p q : InputCapacitorArgs, p = q → runInputCapacitors p = runInputCapacitors q) ∧
    (∀ (α : Type) (c : Bool) (t : String) (l : List (Suggestion α)),
      (rankAndTag c t l).length ≤ 5 ∧
      (scoresOf (rankAndTag c t l)).Pairwise (fun a b => b ≤ a) ∧
      scoresOf (rankAndTag c t l) = ((sortEnumDesc l).map (fun p => p.2.score)).take 5 ∧
      componentsOf (rankAndTag c t l) = ((sortEnumDesc l).map (fun p => p.2.component)).take 5 ∧
      (sortEnumDesc l).Pairwise stableDescRel) ∧
    (∀ (docs : List (String × String)) (reqL maxC freq : ℚ) (catalog : List Inductor)
        (opts : List (Option (Suggestion Inductor))),
      catalog.mapM (processInductor (inductorEffectiveMargins docs).1
          (inductorEffectiveMargins docs).2.1 (inductorEffectiveMargins docs).2.2
          (analyze_inductor_heuristics docs).selection_criteria reqL maxC freq) = .ok opts →
      suggest_inductors docs reqL maxC freq catalog =
        .ok (rankAndTag (!(inductorEffectiveMargins docs).2.2.isEmpty)
          (("📊 Analysis from: ") ++ joinSep (", ") (analyze_inductor_heuristics docs).documents_found)
          opts.reduceOption)) ∧
    (∀ (docs : List (String × String)) (maxV maxC freq : ℚ) (catalog : List MOSFET)
        (opts : List (Option (Suggestion MOSFET))),
      catalog.mapM (processMosfet (mosfetEffectiveMargins docs).1
          (mosfetEffectiveMargins docs).2.1 (mosfetEffectiveMargins docs).2.2
          (analyze_mosfet_heuristics docs).selection_criteria maxV maxC freq) = .ok opts →
      suggest_mosfets docs maxV maxC freq catalog =
        .ok (rankAndTag (!(mosfetEffectiveMargins docs).2.2.isEmpty)
          (("📊 Analysis from: ") ++ joinSep (", ") (analyze_mosfet_heuristics docs).documents_found)
          opts.reduceOption)) := by
  refine ⟨fun p q h => by rw [h], fun p q h => by rw [h], fun p q h => by rw [h],
    fun p q h => by rw [h], ?_, ?_, ?_⟩
  · intro α c t l
    exact ⟨rank_length c t l, rank_scores_sorted c t l, rank_scores c t l,
      rank_components c t l, sortEnumDesc_pairwise l⟩
  · intro docs reqL maxC freq catalog opts h
    simp only [suggest_inductors]
    rw [h]
    rfl
  · intro docs maxV maxC freq catalog opts h
    simp only [suggest_mosfets]
    rw [h]
    rfl

/-- C8 witness: the determinism components at concrete argument bundles, the
ranking bounds at a concrete list, and the decomposition at a concrete
one-inductor run. -/
theorem claim_C8_witness :
    runInductors ([], 470, 2, 65000, [ind470]) = runInductors ([], 470, 2, 65000, [ind470]) ∧
    runMosfets ([], 12, 3, 65000, get_fallback_mosfets) =
      runMosfets ([], 12, 3, 65000, get_fallback_mosfets) ∧
    runCapacitors ([], 10, 5, 65000, get_fallback_capacitors) =
      runCapacitors ([], 10, 5, 65000, get_fallback_capacitors) ∧
    runInputCapacitors ((10, 5, 1, 65000, [inCapFix]) : InputCapacitorArgs) =
      runInputCapacitors ((10, 5, 1, 65000, [inCapFix]) : InputCapacitorArgs) ∧
    (rankAndTag true ((" ")) ([] : List (Suggestion Inductor))).length ≤ 5 ∧
    suggest_inductors [] 470 2 65000 [] =
      .ok (rankAndTag (!(inductorEffectiveMargins []).2.2.isEmpty)
        (("📊 Analysis from: ") ++ joinSep (", ") (analyze_inductor_heuristics ([] : List (String × String))).documents_found)
        (([] : List (Option (Suggestion Inductor))).reduceOption)) :=
  ⟨claim_C8.1 _ _ rfl, claim_C8.2.1 _ _ rfl, claim_C8.2.2.1 _ _ rfl,
   claim_C8.2.2.2.1 _ _ rfl, (claim_C8.2.2.2.2.1 Inductor true ((" ")) []).1,
   claim_C8.2.2.2.2.2.1 [] 470 2 65000 [] [] rfl⟩
